import Mathlib

/-!
Verification development for the infrastructure stack in
`src/infrastructure/stacks/material_dashboard_stack.py`.

The stack constructor is embedded as a pure function from a configuration
record to either a key-lookup error (Python raises `KeyError` on a missing
mandatory key) or a fully built resource-graph model.  Paths and DNS names,
where character-level manipulation matters, are modelled as `List Char`;
configuration fields are `Option String` (`none` models an absent JSON key).
-/

namespace MaterialDashboard

/-- JS `String.endsWith(suffix)` on character lists (used by the inline
CloudFront function code of `spa_function`). -/
def jsEndsWith (s suffix : List Char) : Bool :=
  List.isSuffixOf suffix s

/-- JS `uri.includes('.')`: the whole string contains a dot character. -/
def jsIncludesDot (s : List Char) : Bool :=
  s.contains '.'

/-- Body of the inline CloudFront viewer-request handler of `spa_function`
(lines 79-93 of the stack): if the uri ends in `/` append `index.html`;
otherwise, if the whole uri contains no `.`, append `/index.html`;
otherwise return the uri unchanged. -/
def spaHandler (uri : List Char) : List Char :=
  if jsEndsWith uri ['/'] then uri ++ "index.html".data
  else if jsIncludesDot uri then uri
  else uri ++ "/index.html".data

/-- Final path segment of a uri: the characters after the last `/` (the whole
uri when it has no `/`).  Used only to state the specification's reading of
the rewrite rule, which speaks of the final segment; the source code does
not compute this. -/
def finalSegment (uri : List Char) : List Char :=
  (uri.reverse.takeWhile (fun c => !(c == '/'))).reverse

/-- Python truthiness of an optional string value: `None` and the empty
string are falsy, every other string is truthy.  The stack tests
`if domain and hosted_zone_id and hosted_zone_name:` with exactly this
semantics. -/
def truthy : Option String → Bool
  | none => false
  | some s => !(s == "")

/-- Record-name computation of the alias-record branch (lines 256-258):
`record_name = domain`, then if `domain.endswith('.' + hosted_zone_name)`
strip the last `len(hosted_zone_name) + 1` characters
(`domain[:-(len(hosted_zone_name) + 1)]`). -/
def record_name_chars (domain zoneName : List Char) : List Char :=
  if List.isSuffixOf ('.' :: zoneName) domain then
    domain.take (domain.length - (zoneName.length + 1))
  else domain

/-- String-level wrapper of `record_name_chars`. -/
def record_name (domain zoneName : String) : String :=
  String.mk (record_name_chars domain.data zoneName.data)

/-- CloudFront price classes (the three members of the `price_class_map`
dictionary, lines 119-123). -/
inductive PriceClass where
  | class100
  | class200
  | classAll
deriving DecidableEq

/-- The `price_class_map` dictionary: recognized configuration strings. -/
def price_class_map : String → Option PriceClass
  | "PriceClass_100" => some .class100
  | "PriceClass_200" => some .class200
  | "PriceClass_All" => some .classAll
  | _ => none

/-- Line 124: `price_class_map.get(price_class_input, PRICE_CLASS_100)` —
dictionary lookup with default `PriceClass.class100`. -/
def price_class_value (input : String) : PriceClass :=
  (price_class_map input).getD .class100

/-- S3 removal policy (`RemovalPolicy.DESTROY` / `RemovalPolicy.RETAIN`). -/
inductive RemovalPolicy where
  | destroy
  | retain
deriving DecidableEq

/-- Properties of the `WebsiteBucket` S3 bucket (lines 36-63); attributes
not depending on the configuration and not referenced by any claim (CORS
rule, encryption mode) are represented by their fixed values. -/
structure BucketProps where
  bucketName : String
  versioned : Bool
  publicReadAccess : Bool
  removalPolicy : RemovalPolicy
  autoDeleteObjects : Bool
  enforceSsl : Bool
  noncurrentVersionExpirationDays : Nat
deriving DecidableEq

/-- Properties of the `SiteCertificate` ACM certificate (lines 109-115). -/
structure CertificateProps where
  domainName : String
  hostedZoneId : String
  hostedZoneName : String
  region : String
deriving DecidableEq

/-- WAF rule statement: either a managed rule-group reference or a
rate-based statement. -/
inductive WafStatement where
  | managedRuleGroup (name vendorName : String)
  | rateBased (limit : Nat) (aggregateKeyType : String)
deriving DecidableEq

/-- WAF rule action (`action=...(block=...)`). -/
inductive RuleAction where
  | block
deriving DecidableEq

/-- WAF rule override action (`override_action=...(none=...)`). -/
inductive OverrideAction where
  | overrideNone
deriving DecidableEq

/-- WAF web-ACL default action (`default_action=...(allow=...)`). -/
inductive DefaultAction where
  | allow
deriving DecidableEq

/-- One rule of the `WebACL` (lines 179-210). -/
structure WafRule where
  name : String
  priority : Nat
  statement : WafStatement
  action : Option RuleAction
  overrideAction : Option OverrideAction
deriving DecidableEq

/-- The `WebACL` resource (lines 168-212). -/
structure WebAclProps where
  defaultAction : DefaultAction
  aclScope : String
  rules : List WafRule
deriving DecidableEq

/-- Properties of a CloudFront distribution (`Distribution` lines 127-164,
`DistributionWithWAF` lines 214-251).  `constructId` is the CDK construct
id; `webAclAttached` records the presence of the `web_acl_id` argument. -/
structure DistributionProps where
  constructId : String
  spaFunctionAttached : Bool
  defaultRootObject : String
  priceClass : PriceClass
  certificate : Option CertificateProps
  domainNames : Option (List String)
  errorResponses : List (Nat × Nat × String)
  enableLogging : Bool
  webAclAttached : Bool
deriving DecidableEq

/-- One Route53 alias record (`AliasRecordA` / `AliasRecordAAAA`,
lines 259-272). `targetDistributionId` is the construct id of the
distribution the alias points at. -/
structure DnsRecordProps where
  recordType : String
  recordName : String
  targetDistributionId : String
deriving DecidableEq

/-- The `DeployWebsite` bucket deployment (lines 277-285). -/
structure DeploymentProps where
  destinationBucket : String
  distributionId : String
  distributionPaths : List String
  prune : Bool
deriving DecidableEq

/-- One token of a CloudFormation output value: a literal string piece or a
late-bound attribute reference `construct.attribute` (the Python code
interpolates attribute tokens into f-strings). -/
inductive Token where
  | lit (s : String)
  | attr (constructId attrName : String)
deriving DecidableEq

/-- One `CfnOutput` entry (lines 293-327). -/
structure COutput where
  key : String
  value : List Token
deriving DecidableEq

/-- The raw `cloudfront` sub-document of the configuration. -/
structure CloudfrontSection where
  priceClass : Option String
deriving DecidableEq

/-- The raw configuration document passed to `MaterialDashboardStack`;
`none` models an absent key.  `config['k']` raises `KeyError` on `none`,
`config.get('k')` yields `None`. -/
structure Config where
  environment : Option String
  region : Option String
  account : Option String
  domain : Option String
  hostedZoneId : Option String
  hostedZoneName : Option String
  cloudfront : Option CloudfrontSection
deriving DecidableEq

/-- Failure of stack construction: Python `KeyError` on a missing mandatory
configuration key.  The source defines no other failure mode (in
particular, no `ConfigError` class exists anywhere in the repository). -/
inductive BuildError where
  | keyError (key : String)
deriving DecidableEq

/-- The fully built resource-graph model: every construct the stack
constructor creates, in construction order where order matters
(`distributions`), plus the final value of the `distribution` variable
(`distributionBinding`) that later consumers reference.  `warnings`
records warning side effects emitted during construction; the source
emits none, so construction always leaves it empty. -/
structure StackModel where
  bucket : BucketProps
  oaiComment : String
  spaFunctionId : String
  certificate : Option CertificateProps
  webAcl : Option WebAclProps
  distributions : List DistributionProps
  distributionBinding : String
  dnsRecords : List DnsRecordProps
  deployment : DeploymentProps
  outputs : List COutput
  warnings : List String
deriving DecidableEq

/-- The two WAF rules built for production (lines 179-210). -/
def prodWafRules : List WafRule :=
  [ { name := "AWSManagedRulesCommonRuleSet"
      priority := 1
      statement := .managedRuleGroup "AWSManagedRulesCommonRuleSet" "AWS"
      action := none
      overrideAction := some .overrideNone },
    { name := "RateLimit"
      priority := 2
      statement := .rateBased 2000 "IP"
      action := some .block
      overrideAction := none } ]

/-- Body of the stack constructor once the five mandatory keys have been
read: a direct transcription of lines 36-327 of
`material_dashboard_stack.py`.  Note that in production the source builds
a second distribution `DistributionWithWAF` (lines 214-251) with the same
arguments as `Distribution` plus `web_acl_id`, and rebinds the
`distribution` variable to it; the first distribution remains in the
construct tree. -/
def buildStackBody (environment account : String)
    (domain hosted_zone_id hosted_zone_name : Option String)
    (price_class_input : String) : StackModel :=
  let website_bucket : BucketProps :=
    { bucketName := "material-dashboard-" ++ environment ++ "-" ++ account
      versioned := true
      publicReadAccess := false
      removalPolicy := if environment == "dev" then .destroy else .retain
      autoDeleteObjects := if environment == "dev" then true else false
      enforceSsl := true
      noncurrentVersionExpirationDays := if environment == "dev" then 30 else 90 }
  let zoneBuilt : Bool := truthy domain && truthy hosted_zone_id && truthy hosted_zone_name
  let certificate : Option CertificateProps :=
    if zoneBuilt then
      some { domainName := domain.getD ""
             hostedZoneId := hosted_zone_id.getD ""
             hostedZoneName := hosted_zone_name.getD ""
             region := "us-east-1" }
    else none
  let pcv := price_class_value price_class_input
  let dist0 : DistributionProps :=
    { constructId := "Distribution"
      spaFunctionAttached := true
      defaultRootObject := "index.html"
      priceClass := pcv
      certificate := certificate
      domainNames := if certificate.isSome then some [domain.getD ""] else none
      errorResponses := [(403, 200, "/index.html"), (404, 200, "/index.html")]
      enableLogging := false
      webAclAttached := false }
  let webAcl : Option WebAclProps :=
    if environment == "prod" then
      some { defaultAction := .allow, aclScope := "CLOUDFRONT", rules := prodWafRules }
    else none
  let distWaf : DistributionProps :=
    { constructId := "DistributionWithWAF"
      spaFunctionAttached := true
      defaultRootObject := "index.html"
      priceClass := pcv
      certificate := certificate
      domainNames := if certificate.isSome then some [domain.getD ""] else none
      errorResponses := [(403, 200, "/index.html"), (404, 200, "/index.html")]
      enableLogging := false
      webAclAttached := true }
  let distributions : List DistributionProps :=
    if environment == "prod" then [dist0, distWaf] else [dist0]
  let distributionBinding : String :=
    if environment == "prod" then "DistributionWithWAF" else "Distribution"
  let dnsRecords : List DnsRecordProps :=
    if zoneBuilt && truthy domain then
      let rn := record_name (domain.getD "") (hosted_zone_name.getD "")
      [ { recordType := "A", recordName := rn, targetDistributionId := distributionBinding },
        { recordType := "AAAA", recordName := rn, targetDistributionId := distributionBinding } ]
    else []
  let deployment : DeploymentProps :=
    { destinationBucket := website_bucket.bucketName
      distributionId := distributionBinding
      distributionPaths := ["/*"]
      prune := false }
  let outputs : List COutput :=
    [ { key := "WebsiteBucketName", value := [.attr "WebsiteBucket" "bucket_name"] },
      { key := "CloudFrontDistributionId", value := [.attr distributionBinding "distribution_id"] },
      { key := "CloudFrontDomainName", value := [.attr distributionBinding "distribution_domain_name"] },
      { key := "WebsiteUrl", value := [.lit "https://", .attr distributionBinding "distribution_domain_name"] } ]
    ++ (if environment == "prod" then
          [ { key := "WebACLId", value := [.attr "WebACL" "attr_id"] } ]
        else [])
  { bucket := website_bucket
    oaiComment := "OAI for " ++ environment ++ " environment"
    spaFunctionId := "SpaFunction"
    certificate := certificate
    webAcl := webAcl
    distributions := distributions
    distributionBinding := distributionBinding
    dnsRecords := dnsRecords
    deployment := deployment
    outputs := outputs
    warnings := [] }

/-- The stack constructor.  Mandatory keys are read with `config['k']`,
which raises `KeyError` when absent; reads of `environment`, `region` and
`account` (lines 31-33) precede every resource construction.  The
`config['cloudfront']['priceClass']` reads happen mid-constructor in the
source (line 118); they are placed with the other key reads here because
an exception discards the partially built construct tree either way, so
the observable result (error or final graph) is identical. -/
def buildStack (config : Config) : Except BuildError StackModel :=
  match config.environment with
  | none => .error (.keyError "environment")
  | some environment =>
    match config.region with
    | none => .error (.keyError "region")
    | some _region =>
      match config.account with
      | none => .error (.keyError "account")
      | some account =>
        match config.cloudfront with
        | none => .error (.keyError "cloudfront")
        | some cfSection =>
          match cfSection.priceClass with
          | none => .error (.keyError "priceClass")
          | some price_class_input =>
            .ok (buildStackBody environment account
                  config.domain config.hostedZoneId config.hostedZoneName
                  price_class_input)

/-- Returns true when the token is an attribute reference into the given
construct id (used to state which distribution the outputs reference). -/
def Token.refsConstruct : Token → String → Bool
  | .lit _, _ => false
  | .attr cid _, c => cid == c

/-- Example dev profile: mandatory fields only, no custom-domain fields
(mirrors the expected `config/dev.json`). -/
def devConfig : Config :=
  { environment := some "dev", region := some "us-west-2", account := some "123456789012"
    domain := none, hostedZoneId := none, hostedZoneName := none
    cloudfront := some { priceClass := some "PriceClass_100" } }

/-- Example prod profile with the full custom-domain triple. -/
def prodConfig : Config :=
  { environment := some "prod", region := some "us-west-2", account := some "123456789012"
    domain := some "www.example.com", hostedZoneId := some "Z0123456789", hostedZoneName := some "example.com"
    cloudfront := some { priceClass := some "PriceClass_200" } }

/-- Example prod profile with no custom-domain fields. -/
def prodNoDomainConfig : Config :=
  { environment := some "prod", region := some "us-west-2", account := some "123456789012"
    domain := none, hostedZoneId := none, hostedZoneName := none
    cloudfront := some { priceClass := some "PriceClass_100" } }

/-- Example configuration where `domain` is set but neither hosted-zone
field is: exactly one member of the custom-domain triple present. -/
def partialDomainConfig : Config :=
  { environment := some "dev", region := some "us-west-2", account := some "123456789012"
    domain := some "www.example.com", hostedZoneId := none, hostedZoneName := none
    cloudfront := some { priceClass := some "PriceClass_100" } }

/-- Example configuration with an unrecognized `cloudfront.priceClass`. -/
def bogusPriceConfig : Config :=
  { environment := some "dev", region := some "us-west-2", account := some "123456789012"
    domain := none, hostedZoneId := none, hostedZoneName := none
    cloudfront := some { priceClass := some "bogus" } }

/-! Helper lemmas shared by the claim theorems. -/

/-- Characterization of successful stack construction: all five mandatory
keys are present and the result is `buildStackBody` of their values. -/
theorem buildStack_ok_iff (c : Config) (s : StackModel) :
    buildStack c = .ok s ↔
      ∃ env acct cf pci,
        c.environment = some env ∧ c.region.isSome = true ∧ c.account = some acct ∧
        c.cloudfront = some cf ∧ cf.priceClass = some pci ∧
        buildStackBody env acct c.domain c.hostedZoneId c.hostedZoneName pci = s := by
  obtain ⟨env?, reg?, acct?, d, z, n, cf?⟩ := c
  cases env? <;> cases reg? <;> cases acct? <;>
    rcases cf? with _ | ⟨_ | pci⟩ <;> simp [buildStack]

/-! Claim theorems. -/

/-- C1 (amended): the edge-routing function appends `index.html` when the
path ends in `/`, appends `/index.html` when the whole path contains no
`.` character (the source tests `uri.includes('.')` on the entire path,
not on its final segment), and otherwise returns the path unchanged; in
particular `/foo/` maps to `/foo/index.html`, `/foo` maps to
`/foo/index.html`, and `/foo.js` is unchanged. -/
theorem c1_spa_rewrite (uri : List Char) :
    (jsEndsWith uri ['/'] = true → spaHandler uri = uri ++ "index.html".data) ∧
    (jsEndsWith uri ['/'] = false → '.' ∉ uri → spaHandler uri = uri ++ "/index.html".data) ∧
    (jsEndsWith uri ['/'] = false → '.' ∈ uri → spaHandler uri = uri) ∧
    spaHandler "/foo/".data = "/foo/index.html".data ∧
    spaHandler "/foo".data = "/foo/index.html".data ∧
    spaHandler "/foo.js".data = "/foo.js".data := by
  refine ⟨?_, ?_, ?_, by decide, by decide, by decide⟩
  · intro h
    simp [spaHandler, h]
  · intro h hm
    simp [spaHandler, jsIncludesDot, h, hm]
  · intro h hm
    simp [spaHandler, jsIncludesDot, h, hm]

/-- C1 counterexample: the path `/api.v2/users` does not end in `/` and its
final segment `users` contains no `.`, so the claim requires the rewrite
to `/api.v2/users/index.html`; the code instead returns the path
unchanged, because the `.` of the earlier segment `api.v2` makes
`uri.includes('.')` true. -/
theorem c1_counterexample :
    jsEndsWith "/api.v2/users".data ['/'] = false ∧
    List.contains (finalSegment "/api.v2/users".data) '.' = false ∧
    spaHandler "/api.v2/users".data = "/api.v2/users".data ∧
    spaHandler "/api.v2/users".data ≠ "/api.v2/users".data ++ "/index.html".data := by
  decide

/-- Witness for C1: instantiation at the concrete path `/foo`. -/
theorem c1_spa_rewrite_witness :
    spaHandler "/foo".data = "/foo/index.html".data :=
  (c1_spa_rewrite "/foo".data).2.1 (by decide) (by decide)

/-- C2 (amended): for every non-prod configuration exactly one distribution
descriptor is constructed, without a firewall attachment; for prod the
source constructs a second distribution `DistributionWithWAF` after the
firewall and rebinds the `distribution` variable to it, so the construct
tree contains two distribution descriptors, with the firewall attached
only to the second, rebound one. -/
theorem c2_single_distribution (c : Config) (s : StackModel) (h : buildStack c = .ok s) :
    (c.environment ≠ some "prod" →
      s.distributions.map (fun d => (d.constructId, d.webAclAttached)) = [("Distribution", false)]) ∧
    (c.environment = some "prod" →
      s.distributions.map (fun d => (d.constructId, d.webAclAttached)) =
        [("Distribution", false), ("DistributionWithWAF", true)] ∧
      s.distributionBinding = "DistributionWithWAF") := by
  rcases (buildStack_ok_iff c s).1 h with ⟨env, acct, cf, pci, henv, hreg, hacct, hcf, hpci, hbody⟩
  subst hbody
  constructor
  · intro hne
    have he : (env == "prod") = false := by
      cases hb : (env == "prod")
      · rfl
      · exact absurd (by rw [henv, beq_iff_eq.1 hb]) hne
    simp [buildStackBody, he]
  · intro hp
    rw [henv] at hp
    injection hp with he
    subst he
    simp [buildStackBody]

/-- C2 counterexample: for the prod profile the construct tree contains two
independent distribution descriptors, `Distribution` (no firewall) and
`DistributionWithWAF` (firewall attached), refuting "exactly one
content-distribution descriptor is constructed ... including when
environment == prod". -/
theorem c2_counterexample :
    (buildStack prodNoDomainConfig).toOption.map
        (fun s => s.distributions.map (fun d => (d.constructId, d.webAclAttached))) =
      some [("Distribution", false), ("DistributionWithWAF", true)] := by
  decide

/-- Witness for C2: instantiation at the concrete dev profile. -/
theorem c2_single_distribution_witness :
    (buildStackBody "dev" "123456789012" none none none "PriceClass_100").distributions.map
        (fun d => (d.constructId, d.webAclAttached)) = [("Distribution", false)] :=
  (c2_single_distribution devConfig _ rfl).1 (by decide)

/-- C3 (amended): when `environment`, `region` or `account` is missing,
construction fails with a key-lookup error (Python `KeyError`; the
repository defines no `ConfigError`) before any resource descriptor is
built; a configuration in which exactly one of `domain` / `hostedZoneId`
/ `hostedZoneName` is present does not fail — construction succeeds and
the custom-domain feature (certificate, hosted zone, DNS records) is
silently omitted. -/
theorem c3_validation_behavior (c : Config) :
    (c.environment = none → buildStack c = .error (.keyError "environment")) ∧
    (c.environment ≠ none → c.region = none → buildStack c = .error (.keyError "region")) ∧
    (c.environment ≠ none → c.region ≠ none → c.account = none →
      buildStack c = .error (.keyError "account")) ∧
    (∀ s, buildStack c = .ok s →
      (truthy c.domain && truthy c.hostedZoneId && truthy c.hostedZoneName) = false →
      s.certificate = none ∧ s.dnsRecords = []) := by
  refine ⟨?_, ?_, ?_, ?_⟩
  · intro h
    simp [buildStack, h]
  · intro h1 h2
    rcases he : c.environment with _ | env
    · exact absurd he h1
    · simp [buildStack, he, h2]
  · intro h1 h2 h3
    rcases he : c.environment with _ | env
    · exact absurd he h1
    · rcases hr : c.region with _ | reg
      · exact absurd hr h2
      · simp [buildStack, he, hr, h3]
  · intro s h hb
    rcases (buildStack_ok_iff c s).1 h with ⟨env, acct, cf, pci, henv, hreg, hacct, hcf, hpci, hbody⟩
    subst hbody
    simp [buildStackBody, hb]

/-- C3 counterexample: a configuration in which `domain` alone of the
custom-domain triple is present constructs successfully (no error of any
kind is raised), with the certificate and DNS records silently absent —
refuting "construction fails with a `ConfigError` ... when exactly one of
{domain, hostedZoneId, hostedZoneName} is present". -/
theorem c3_counterexample :
    (buildStack partialDomainConfig).toOption.isSome = true ∧
    (buildStack partialDomainConfig).toOption.map (fun s => (s.certificate, s.dnsRecords)) =
      some (none, []) := by
  decide

/-- Witness for C3: a dev profile with `environment` removed fails with the
key error for `environment`. -/
theorem c3_validation_behavior_witness :
    buildStack { devConfig with environment := none } = .error (.keyError "environment") :=
  (c3_validation_behavior { devConfig with environment := none }).1 (by decide)

/-- C4 (confirmed): a firewall descriptor is produced if and only if the
environment is `prod`, and it then holds exactly two rules — the managed
common rule-set at priority 1, allow-by-default (no rule action) with
override action none, and a rate-based rule at priority 2 that blocks,
keyed by client IP, with limit 2000. -/
theorem c4_firewall_policy (c : Config) (s : StackModel) (h : buildStack c = .ok s) :
    (s.webAcl.isSome = true ↔ c.environment = some "prod") ∧
    (∀ acl, s.webAcl = some acl →
      acl.defaultAction = .allow ∧
      acl.rules.map (fun r => r.priority) = [1, 2] ∧
      ∃ r1 r2, acl.rules = [r1, r2] ∧
        r1.statement = .managedRuleGroup "AWSManagedRulesCommonRuleSet" "AWS" ∧
        r1.action = none ∧ r1.overrideAction = some .overrideNone ∧
        r2.statement = .rateBased 2000 "IP" ∧ r2.action = some .block) := by
  rcases (buildStack_ok_iff c s).1 h with ⟨env, acct, cf, pci, henv, hreg, hacct, hcf, hpci, hbody⟩
  subst hbody
  cases hb : (env == "prod") with
  | false =>
    have hne : env ≠ "prod" := by
      intro he
      rw [he] at hb
      simp at hb
    constructor
    · simp [buildStackBody, hb, henv, hne]
    · intro acl hacl
      rw [show (buildStackBody env acct c.domain c.hostedZoneId c.hostedZoneName pci).webAcl
            = none by simp [buildStackBody, hb]] at hacl
      cases hacl
  | true =>
    have he : env = "prod" := beq_iff_eq.1 hb
    subst he
    constructor
    · simp [buildStackBody, henv]
    · intro acl hacl
      rw [show (buildStackBody "prod" acct c.domain c.hostedZoneId c.hostedZoneName pci).webAcl
            = some { defaultAction := .allow, aclScope := "CLOUDFRONT", rules := prodWafRules }
          by simp [buildStackBody]] at hacl
      injection hacl with he2
      subst he2
      refine ⟨rfl, by decide, ?_⟩
      exact ⟨_, _, rfl, rfl, rfl, rfl, rfl, rfl⟩

/-- Witness for C4: the prod profile builds a firewall descriptor. -/
theorem c4_firewall_policy_witness :
    (buildStackBody "prod" "123456789012" none none none "PriceClass_100").webAcl.isSome = true :=
  (c4_firewall_policy prodNoDomainConfig _ rfl).1.2 rfl

/-- C5 (amended): price-tier resolution maps the three recognized strings to
their tiers and falls back to `PriceClass_100` on every unrecognized
input without failing — but the fallback is silent: the source emits no
`PolicyDefaultApplied` or warning signal anywhere (stack construction
always produces an empty warning list). -/
theorem c5_price_class_fallback (s : String) :
    price_class_value "PriceClass_100" = .class100 ∧
    price_class_value "PriceClass_200" = .class200 ∧
    price_class_value "PriceClass_All" = .classAll ∧
    (price_class_map s = none → price_class_value s = .class100) ∧
    (∀ c st, buildStack c = .ok st → st.warnings = []) := by
  refine ⟨by decide, by decide, by decide, ?_, ?_⟩
  · intro h
    simp [price_class_value, h]
  · intro c st h
    rcases (buildStack_ok_iff c st).1 h with ⟨env, acct, cf, pci, henv, hreg, hacct, hcf, hpci, hbody⟩
    subst hbody
    simp [buildStackBody]

/-- C5 counterexample: on the unrecognized input `bogus` the fallback tier
is applied, yet the built stack carries no warning signal of any kind —
refuting "this fallback is observable as a `PolicyDefaultApplied` /
warning signal rather than being silent". -/
theorem c5_counterexample :
    price_class_map "bogus" = none ∧
    price_class_value "bogus" = .class100 ∧
    (buildStack bogusPriceConfig).toOption.map
        (fun st => (st.warnings, st.distributions.map (fun d => d.priceClass))) =
      some ([], [.class100]) := by
  decide

/-- Witness for C5: the fallback branch at the concrete input `bogus`. -/
theorem c5_price_class_fallback_witness :
    price_class_value "bogus" = .class100 :=
  (c5_price_class_fallback "bogus").2.2.2.1 (by decide)

/-- C6 (confirmed): for environment `dev` the storage bucket gets the
destroy removal policy, auto-delete of contents and 30-day noncurrent
version expiry; for every other environment value it gets retain, no
auto-delete and 90-day expiry. -/
theorem c6_retention_policy (c : Config) (s : StackModel) (h : buildStack c = .ok s) :
    (c.environment = some "dev" →
      s.bucket.removalPolicy = .destroy ∧ s.bucket.autoDeleteObjects = true ∧
      s.bucket.noncurrentVersionExpirationDays = 30) ∧
    (c.environment ≠ some "dev" →
      s.bucket.removalPolicy = .retain ∧ s.bucket.autoDeleteObjects = false ∧
      s.bucket.noncurrentVersionExpirationDays = 90) := by
  rcases (buildStack_ok_iff c s).1 h with ⟨env, acct, cf, pci, henv, hreg, hacct, hcf, hpci, hbody⟩
  subst hbody
  constructor
  · intro hdev
    rw [henv] at hdev
    injection hdev with he
    subst he
    simp [buildStackBody]
  · intro hne
    have he : (env == "dev") = false := by
      cases hb : (env == "dev")
      · rfl
      · exact absurd (by rw [henv, beq_iff_eq.1 hb]) hne
    simp [buildStackBody, he]

/-- Witness for C6: the dev profile yields the destroy removal policy. -/
theorem c6_retention_policy_witness :
    (buildStackBody "dev" "123456789012" none none none "PriceClass_100").bucket.removalPolicy
      = .destroy :=
  ((c6_retention_policy devConfig _ rfl).1 rfl).1

/-- C7 (confirmed): the record-name computation strips the trailing
`'.' + zoneName` suffix when the domain ends with it (returning the bare
label part before the suffix) and returns the domain unchanged otherwise;
`dev.example.com` relative to `example.com` yields `dev`, and
`example.com` relative to `other.com` is unchanged. -/
theorem c7_record_name_strip (domain zoneName p : List Char) :
    (domain = p ++ '.' :: zoneName → record_name_chars domain zoneName = p) ∧
    (List.isSuffixOf ('.' :: zoneName) domain = false → record_name_chars domain zoneName = domain) ∧
    record_name "dev.example.com" "example.com" = "dev" ∧
    record_name "example.com" "other.com" = "example.com" := by
  refine ⟨?_, ?_, by decide, by decide⟩
  · rintro rfl
    have hsuf : List.isSuffixOf ('.' :: zoneName) (p ++ '.' :: zoneName) = true := by
      simp [List.isSuffixOf_iff_suffix]
    have hlen : (p ++ '.' :: zoneName).length - (zoneName.length + 1) = p.length := by
      simp [List.length_append]
    rw [record_name_chars, if_pos hsuf, hlen]
    exact List.take_left p ('.' :: zoneName)
  · intro h
    simp [record_name_chars, h]

/-- Witness for C7: suffix stripping at a concrete domain and zone. -/
theorem c7_record_name_strip_witness :
    record_name_chars "dev.example.org".data "example.org".data = "dev".data :=
  (c7_record_name_strip "dev.example.org".data "example.org".data "dev".data).1 (by decide)

/-- C8 (confirmed): a certificate with hosted-zone binding is constructed if
and only if `domain`, `hostedZoneId` and `hostedZoneName` are all present
(truthy: non-absent, non-empty) in the configuration, and it is then
always requested in the fixed region `us-east-1`, whatever the configured
deployment region is. -/
theorem c8_certificate_conditional (c : Config) (s : StackModel) (h : buildStack c = .ok s) :
    (s.certificate.isSome = true ↔
      truthy c.domain = true ∧ truthy c.hostedZoneId = true ∧ truthy c.hostedZoneName = true) ∧
    (∀ cert, s.certificate = some cert →
      cert.region = "us-east-1" ∧ cert.domainName = c.domain.getD "" ∧
      cert.hostedZoneId = c.hostedZoneId.getD "" ∧ cert.hostedZoneName = c.hostedZoneName.getD "") := by
  rcases (buildStack_ok_iff c s).1 h with ⟨env, acct, cf, pci, henv, hreg, hacct, hcf, hpci, hbody⟩
  subst hbody
  cases hb : (truthy c.domain && truthy c.hostedZoneId && truthy c.hostedZoneName) with
  | false =>
    constructor
    · simp only [buildStackBody, hb]
      simp
      intro h1 h2
      cases h3 : truthy c.hostedZoneName
      · rfl
      · rw [h1, h2, h3] at hb
        simp at hb
    · intro cert hcert
      rw [show (buildStackBody env acct c.domain c.hostedZoneId c.hostedZoneName pci).certificate
            = none by simp [buildStackBody, hb]] at hcert
      cases hcert
  | true =>
    constructor
    · simp only [buildStackBody, hb]
      simp
      obtain ⟨hdz, hn⟩ := Bool.and_eq_true_iff.1 hb
      obtain ⟨hd, hz⟩ := Bool.and_eq_true_iff.1 hdz
      exact ⟨hd, hz, hn⟩
    · intro cert hcert
      rw [show (buildStackBody env acct c.domain c.hostedZoneId c.hostedZoneName pci).certificate
            = some { domainName := c.domain.getD "", hostedZoneId := c.hostedZoneId.getD "",
                     hostedZoneName := c.hostedZoneName.getD "", region := "us-east-1" }
          by simp [buildStackBody, hb]] at hcert
      injection hcert with he
      subst he
      exact ⟨rfl, rfl, rfl, rfl⟩

/-- Witness for C8: the full prod profile builds a certificate. -/
theorem c8_certificate_conditional_witness :
    (buildStackBody "prod" "123456789012" (some "www.example.com") (some "Z0123456789")
        (some "example.com") "PriceClass_200").certificate.isSome = true :=
  (c8_certificate_conditional prodConfig _ rfl).1.2 ⟨by decide, by decide, by decide⟩

/-- C9 (confirmed): the output map holds exactly the bucket-name output,
the distribution id, the distribution-assigned domain name, and the
HTTPS URL formed as the literal `https://` followed by that same domain
name, plus the firewall id exactly when a firewall was built; hence the
prod output map has 5 keys, every non-prod map (so the dev map) has 4,
and the prod key set strictly extends the non-prod one. -/
theorem c9_output_map (c : Config) (s : StackModel) (h : buildStack c = .ok s) :
    (s.outputs.map (fun o => o.key) =
      ["WebsiteBucketName", "CloudFrontDistributionId", "CloudFrontDomainName", "WebsiteUrl"]
        ++ (if s.webAcl.isSome then ["WebACLId"] else [])) ∧
    COutput.mk "WebsiteBucketName" [.attr "WebsiteBucket" "bucket_name"] ∈ s.outputs ∧
    COutput.mk "CloudFrontDistributionId" [.attr s.distributionBinding "distribution_id"] ∈ s.outputs ∧
    COutput.mk "CloudFrontDomainName" [.attr s.distributionBinding "distribution_domain_name"] ∈ s.outputs ∧
    COutput.mk "WebsiteUrl" [.lit "https://", .attr s.distributionBinding "distribution_domain_name"] ∈ s.outputs ∧
    (COutput.mk "WebACLId" [.attr "WebACL" "attr_id"] ∈ s.outputs ↔ s.webAcl.isSome = true) ∧
    (s.webAcl.isSome = true ↔ c.environment = some "prod") ∧
    (c.environment = some "prod" → s.outputs.length = 5) ∧
    (c.environment ≠ some "prod" → s.outputs.length = 4) := by
  rcases (buildStack_ok_iff c s).1 h with ⟨env, acct, cf, pci, henv, hreg, hacct, hcf, hpci, hbody⟩
  subst hbody
  cases hb : (env == "prod") with
  | false =>
    have hne2 : env ≠ "prod" := by
      intro he
      rw [he] at hb
      simp at hb
    have hne : c.environment ≠ some "prod" := by
      rw [henv]
      intro he
      injection he with he2
      exact hne2 he2
    refine ⟨?_, ?_, ?_, ?_, ?_, ?_, ?_, ?_, ?_⟩ <;>
      simp [buildStackBody, hb, hne, henv, hne2]
  | true =>
    have he : env = "prod" := beq_iff_eq.1 hb
    subst he
    refine ⟨?_, ?_, ?_, ?_, ?_, ?_, ?_, ?_, ?_⟩ <;>
      simp [buildStackBody, henv]

/-- Witness for C9: the dev profile yields 4 outputs. -/
theorem c9_output_map_witness :
    (buildStackBody "dev" "123456789012" none none none "PriceClass_100").outputs.length = 4 :=
  (c9_output_map devConfig _ rfl).2.2.2.2.2.2.2.2 (by decide)

/-- C10 (confirmed): for a prod configuration with the full custom-domain
triple, the distribution binding is the firewall-attached
`DistributionWithWAF` (the only distribution descriptor carrying the
firewall), and the A and AAAA alias records, the deployment descriptor,
and every attribute reference in the outputs use that binding — none of
them references the earlier firewall-less `Distribution`. -/
theorem c10_consumers_use_waf_distribution (c : Config) (s : StackModel)
    (h : buildStack c = .ok s) (hp : c.environment = some "prod")
    (hd : truthy c.domain = true) (hz : truthy c.hostedZoneId = true)
    (hn : truthy c.hostedZoneName = true) :
    s.distributionBinding = "DistributionWithWAF" ∧
    (∀ d ∈ s.distributions, (d.webAclAttached = true ↔ d.constructId = "DistributionWithWAF")) ∧
    s.dnsRecords.map (fun r => (r.recordType, r.targetDistributionId)) =
      [("A", "DistributionWithWAF"), ("AAAA", "DistributionWithWAF")] ∧
    s.deployment.distributionId = "DistributionWithWAF" ∧
    (∀ o ∈ s.outputs, ∀ t ∈ o.value, Token.refsConstruct t "Distribution" = false) := by
  rcases (buildStack_ok_iff c s).1 h with ⟨env, acct, cf, pci, henv, hreg, hacct, hcf, hpci, hbody⟩
  subst hbody
  rw [henv] at hp
  injection hp with he
  subst he
  have hb : (truthy c.domain && truthy c.hostedZoneId && truthy c.hostedZoneName) = true := by
    rw [hd, hz, hn]
    rfl
  refine ⟨?_, ?_, ?_, ?_, ?_⟩ <;> simp [buildStackBody, hb, hd, hz, hn, Token.refsConstruct]

/-- Witness for C10: the concrete prod profile with domain triple binds the
firewall-attached distribution. -/
theorem c10_consumers_use_waf_distribution_witness :
    (buildStackBody "prod" "123456789012" (some "www.example.com") (some "Z0123456789")
        (some "example.com") "PriceClass_200").distributionBinding = "DistributionWithWAF" :=
  (c10_consumers_use_waf_distribution prodConfig _ rfl rfl (by decide) (by decide) (by decide)).1

end MaterialDashboard
